import Mathlib

/-
  Verification development for the treemap chart plugin (src/treemap.ts).

  The TypeScript source is shallowly embedded below:
  - JavaScript runtime values appearing in data rows are modelled by `JsVal`
    (`undef` models the JS value `undefined`, `nan` models the number NaN);
    reading past the end of a row yields `undefined`, as in JS.
  - `parseFloat` is modelled by `jsParseFloat`, returning `none` for NaN.
  - try/catch blocks are modelled with `Except`: a thrown JS exception is an
    `Except.error`, and the catch handler is the `.error` branch of a `match`.
  - The module-level mutable variables (`userNumberFormat`, `numberOfLabels`,
    `gradientColor0/50/100`) are modelled by an explicit `Globals` record
    threaded through `render`.
  - Host SDK event emission (`ctx.emitEvent`) is modelled by returning the
    list of emitted `TSEvent`s.
-/

namespace Treemap

/-- Model of a JavaScript value as it occurs in data rows and event payloads.
`undef` is the JS `undefined`; `nan` is the JS number NaN. Numbers are
modelled by rationals. -/
inductive JsVal where
  | str : String → JsVal
  | num : ℚ → JsVal
  | undef : JsVal
  | nan : JsVal
deriving DecidableEq

/-- JS array indexing `row[i]`: out-of-range access yields `undefined`. -/
def getJs (row : List JsVal) (i : Nat) : JsVal := row.getD i JsVal.undef

/-- Model of JS `.toString()` on the values that can appear in a category
cell. Number printing is abridged to decimal printing of the rational. -/
def jsToString : JsVal → String
  | JsVal.str s => s
  | JsVal.num q => if q.den = 1 then toString q.num else toString q
  | JsVal.undef => "undefined"
  | JsVal.nan => "NaN"

/-- Digits of a numeric literal interpreted in base 10. -/
def digitsToNat (ds : List Char) : Nat :=
  ds.foldl (fun acc c => acc * 10 + (c.toNat - '0'.toNat)) 0

/-
  Exact rational arithmetic, spelled out on numerators and denominators via
  `mkRat`/`Rat.divInt` (the `@[irreducible]` library operations would block
  evaluation inside proofs). These implement the ordinary field operations
  of ℚ, which is how the JS number arithmetic of the source is modelled.
-/

/-- Rational addition. -/
def ratAdd (a b : ℚ) : ℚ := mkRat (a.num * b.den + b.num * a.den) (a.den * b.den)

/-- Rational multiplication. -/
def ratMul (a b : ℚ) : ℚ := mkRat (a.num * b.num) (a.den * b.den)

/-- Rational negation. -/
def ratNeg (a : ℚ) : ℚ := mkRat (-a.num) a.den

/-- Rational division (`a / b`). -/
def ratDiv (a b : ℚ) : ℚ := Rat.divInt (a.num * b.den) (a.den * b.num)

/-- The rational `10 ^ k`. -/
def pow10 (k : Nat) : ℚ := mkRat (10 ^ k) 1

/-- Model of JS `parseFloat` on a string: the longest numeric prefix
`[sign] digits [. digits]` is parsed; if there is none the result is NaN
(modelled as `none`). Exponent suffixes are not modelled. -/
def strToFloat (s : String) : Option ℚ :=
  let cs := s.toList
  let negAndRest : (Bool × List Char) :=
    match cs with
    | '-' :: rest => (true, rest)
    | '+' :: rest => (false, rest)
    | _ => (false, cs)
  let intDigits := negAndRest.2.takeWhile Char.isDigit
  let afterInt := negAndRest.2.dropWhile Char.isDigit
  let fracDigits :=
    match afterInt with
    | '.' :: rest => rest.takeWhile Char.isDigit
    | _ => []
  if intDigits.isEmpty ∧ fracDigits.isEmpty then
    none
  else
    let magnitude := ratAdd (mkRat (digitsToNat intDigits) 1)
      (mkRat (digitsToNat fracDigits) (10 ^ fracDigits.length))
    some (if negAndRest.1 then ratNeg magnitude else magnitude)

/-- Model of JS `parseFloat` applied to a row cell. `parseFloat(undefined)`
is NaN; a number parses to itself. NaN is modelled as `none`. -/
def jsParseFloat : JsVal → Option ℚ
  | JsVal.str s => strToFloat s
  | JsVal.num q => some q
  | JsVal.undef => none
  | JsVal.nan => none

/-- Embed a Highcharts point numeric value back into a JS value (NaN when
the parse failed). -/
def numToJs : Option ℚ → JsVal
  | some q => JsVal.num q
  | none => JsVal.nan

/-- Column type, from the host SDK's `ColumnType` (the two cases used by the
source). -/
inductive ColumnType where
  | attribute
  | measure
deriving DecidableEq

/-- Host SDK `ChartColumn`: the fields the source reads. -/
structure ChartColumn where
  id : String
  name : String
  type : ColumnType
deriving DecidableEq

/-- One dimension of a chart configuration (`key` plus assigned columns). -/
structure ChartDimension where
  key : String
  columns : List ChartColumn
deriving DecidableEq

/-- Host SDK `ChartConfig` as consumed by `getDataModel` and `render`. -/
structure ChartConfigEntry where
  key : String
  dimensions : List ChartDimension
deriving DecidableEq

/-- The `config` field of the chart model; `chartConfig` is optional in JS. -/
structure ChartModelConfig where
  chartConfig : Option (List ChartConfigEntry)
deriving DecidableEq

/-- Host SDK `DataPointsArray`: the row data (`dataValue`). -/
structure DataPointsArray where
  dataValue : List (List JsVal)
deriving DecidableEq

/-- One entry of `chartModel.data`; the source reads its `.data` field. -/
structure DataSet where
  data : DataPointsArray
deriving DecidableEq

/-- Runtime shape of the `visualProps` record: every property may be absent
(the source guards each read with `||` fallbacks). -/
structure VisualProps where
  numberFormat : Option String
  numOfLabels : Option Int
  gradientColor0 : Option String
  gradientColor50 : Option String
  gradientColor100 : Option String
deriving DecidableEq

/-- Host SDK `ChartModel`: the fields the source reads. `visualProps` is
`none` when the host supplies `undefined` (reading a property of it then
throws). -/
structure ChartModel where
  config : Option ChartModelConfig
  data : Option (List DataSet)
  columns : List ChartColumn
  visualProps : Option VisualProps
deriving DecidableEq

/-- One tooltip entry `{columnName, value}` built by `getDataModel`. -/
structure TooltipEntry where
  columnName : String
  value : JsVal
deriving DecidableEq

/-- A treemap point `{name, value, colorValue, tooltipData}` as built by
`getDataModel`. `value` and `colorValue` are `parseFloat` results (NaN is
`none`). -/
structure TreemapPoint where
  name : String
  value : Option ℚ
  colorValue : Option ℚ
  tooltipData : List TooltipEntry
deriving DecidableEq

/-- The body of the row callback in `getDataModel` (src/treemap.ts lines
99-113): category name from `row[0]` (`'Unnamed'` when undefined), point
value `parseFloat(row[1])`, color value `parseFloat(row[2])`, and one
tooltip entry per measure column reading `row[colIndex + 1]`. -/
def mkPoint (measureColumns : List ChartColumn) (row : List JsVal) : TreemapPoint :=
  let categoryName := getJs row 0
  { name := if categoryName = JsVal.undef then "Unnamed" else jsToString categoryName
    value := jsParseFloat (getJs row 1)
    colorValue := jsParseFloat (getJs row 2)
    tooltipData := measureColumns.enum.map fun p =>
      { columnName := p.2.name, value := getJs row (p.1 + 1) } }

/-- The sort comparator `(a, b) => b.value - a.value` of src/treemap.ts line
115, as the before-or-equal relation of the resulting order: `a` may be
placed before `b` iff the comparator result is `≤ 0`. A NaN comparator
result leaves the relative order of the pair unconstrained, which the model
renders as `true`. -/
def ptLe (a b : TreemapPoint) : Bool :=
  match b.value, a.value with
  | some y, some x => decide (y ≤ x)
  | _, _ => true

/-- Insert one point into an already-sorted list, keeping the comparator
order (stable, as `Array.prototype.sort` is). -/
def insertPoint (p : TreemapPoint) : List TreemapPoint → List TreemapPoint
  | [] => [p]
  | q :: rest => if ptLe p q then p :: q :: rest else q :: insertPoint p rest

/-- Model of `dataModel.sort((a, b) => b.value - a.value)` as a stable
insertion sort with respect to `ptLe`. -/
def sortPoints : List TreemapPoint → List TreemapPoint
  | [] => []
  | p :: rest => insertPoint p (sortPoints rest)

/-- Result of `getDataModel`: the failure paths return `{ values: [] }`, in
which the other two properties are absent. -/
structure DataModelResult where
  values : List TreemapPoint
  categoryName : Option String := none
  measureColumns : List String := []
deriving DecidableEq

/-- Line 83: `chartModel.config?.chartConfig?.[0].dimensions ?? []`. Note
that the index access `[0]` is NOT optional-chained onto `.dimensions`: when
`chartConfig` is present but empty, `chartConfig[0]` is `undefined` and
reading `.dimensions` of it throws (an `Except.error`, caught by the
function's catch block). -/
def configDimensionsOf (cm : ChartModel) : Except Unit (List ChartDimension) :=
  match cm.config with
  | none => Except.ok []
  | some cfg =>
    match cfg.chartConfig with
    | none => Except.ok []
    | some [] => Except.error ()
    | some (c :: _) => Except.ok c.dimensions

/-- Line 84: `chartModel.data?.[0]?.data ?? undefined`. -/
def dataArrOf (cm : ChartModel) : Option DataPointsArray :=
  (cm.data.bind List.head?).map DataSet.data

/-- The rows the source iterates over (empty when no data is present). -/
def dataRows (cm : ChartModel) : List (List JsVal) :=
  match dataArrOf cm with
  | some d => d.dataValue
  | none => []

/-- Line 92: `_.filter(chartModel.columns, col => col.type === ColumnType.MEASURE)`. -/
def measureColumnsOf (cm : ChartModel) : List ChartColumn :=
  cm.columns.filter fun col => col.type == ColumnType.measure

/-- Line 362: the attribute columns of the chart model. -/
def attributeColumnsOf (cm : ChartModel) : List ChartColumn :=
  cm.columns.filter fun col => col.type == ColumnType.attribute

/-- Line 91: `configDimensions?.[0]?.columns?.[0]`. -/
def categoryColumnOfDims (dims : List ChartDimension) : Option ChartColumn :=
  dims.head?.bind fun d => d.columns.head?

/-- The category column `getDataModel` resolves; `none` also covers the case
in which resolving the dimensions throws. -/
def categoryColumnOf (cm : ChartModel) : Option ChartColumn :=
  match configDimensionsOf cm with
  | Except.ok dims => categoryColumnOfDims dims
  | Except.error _ => none

/-- The body of `getDataModel`'s try block (src/treemap.ts lines 82-120),
with thrown exceptions surfaced as `Except.error`. -/
def getDataModelCore (cm : ChartModel) : Except Unit DataModelResult :=
  match configDimensionsOf cm with
  | Except.error e => Except.error e
  | Except.ok configDimensions =>
    match dataArrOf cm with
    | none => Except.ok { values := [] }
    | some dataArr =>
      let categoryColumn := categoryColumnOfDims configDimensions
      let measureColumns := measureColumnsOf cm
      match categoryColumn with
      | none => Except.ok { values := [] }
      | some catCol =>
        if measureColumns.isEmpty then
          Except.ok { values := [] }
        else
          let dataModel := dataArr.dataValue.map (mkPoint measureColumns)
          Except.ok { values := sortPoints dataModel
                      categoryName := some catCol.name
                      measureColumns := measureColumns.map ChartColumn.name }

/-- `getDataModel` (src/treemap.ts lines 80-125): the catch block returns
`{ values: [] }`. -/
def getDataModel (cm : ChartModel) : DataModelResult :=
  match getDataModelCore cm with
  | Except.ok r => r
  | Except.error _ => { values := [] }

/-- The module-level mutable variables of src/treemap.ts lines 33-39,
threaded explicitly through `render`. -/
structure Globals where
  userNumberFormat : String
  numberOfLabels : Int
  gradientColor0 : String
  gradientColor50 : String
  gradientColor100 : String
deriving DecidableEq

/-- Their initial values (lines 33-39). -/
def defaultGlobals : Globals :=
  { userNumberFormat := "0.0"
    numberOfLabels := 1
    gradientColor0 := "#F0F0F0"
    gradientColor50 := "#A8D5BA"
    gradientColor100 := "#4F6D7A" }

/-- JS `visualProps.x || current` for a string property: an absent property
or the falsy empty string keeps the current value. -/
def orElseStr (o : Option String) (cur : String) : String :=
  match o with
  | some s => if s = "" then cur else s
  | none => cur

/-- JS `visualProps.x || current` for a number property: an absent property
or the falsy `0` keeps the current value. -/
def orElseInt (o : Option Int) (cur : Int) : Int :=
  match o with
  | some n => if n = 0 then cur else n
  | none => cur

/-- The color axis of the built Highcharts configuration (lines 270-286):
`minColor`, `maxColor` and the three gradient stops. -/
structure ColorAxisCfg where
  minColor : String
  maxColor : String
  stops : List (ℚ × String)
deriving DecidableEq

/-- The parts of the Highcharts configuration object (lines 186-327) that
the claims are about: the series data, the column ids captured by the point
click handler, the color axis, and the legend title. -/
structure HCConfig where
  seriesData : List TreemapPoint
  clickCategoryId : String
  clickMeasureId : String
  colorAxis : ColorAxisCfg
  legendTitle : Option String
deriving DecidableEq

/-- Outcome of one `render` call: `mounted` is the configuration passed to
`Highcharts.chart` (or `none` when the function returned without mounting);
`failed` is true exactly when the catch block of `render` ran. -/
structure RenderResult where
  mounted : Option HCConfig
  failed : Bool
deriving DecidableEq

/-- The slice of `CustomChartContext` the render path reads:
`ctx.getChartModel()` (possibly `undefined`). -/
structure Ctx where
  chartModel : Option ChartModel
deriving DecidableEq

/-- Lines 177-179: `chartModel.config?.chartConfig?.[0]?.dimensions` with
full optional chaining (unlike line 83); a broken chain behaves like an
empty dimension list for the subsequent indexed reads. -/
def renderDims (cm : ChartModel) : List ChartDimension :=
  match cm.config with
  | none => []
  | some cfg =>
    match cfg.chartConfig with
    | none => []
    | some ccs =>
      match ccs.head? with
      | none => []
      | some c => c.dimensions

/-- `...dimensions?.[i]?.columns?.[0]?.id` (lines 177-178). -/
def dimColumnId (cm : ChartModel) (i : Nat) : Option String :=
  ((renderDims cm).get? i).bind fun d => (d.columns.head?).map ChartColumn.id

/-- `...dimensions?.[2]?.columns?.[0]?.name` (line 179). -/
def dimColumnName (cm : ChartModel) (i : Nat) : Option String :=
  ((renderDims cm).get? i).bind fun d => (d.columns.head?).map ChartColumn.name

/-- The try block of `render` (src/treemap.ts lines 152-327). Early returns
are `Except.ok` with `mounted := none`; the only JS expression in the block
that can throw in this model is the property read on an undefined
`visualProps` (line 167), surfaced as `Except.error`. Note the globals are
reassigned (lines 167-171) before the category/measure id check of line
181. -/
def renderCore (g : Globals) (ctx : Ctx) : Except Unit (Globals × RenderResult) :=
  match ctx.chartModel with
  | none => Except.ok (g, { mounted := none, failed := false })
  | some chartModel =>
    let dataModel := getDataModel chartModel
    if dataModel.values.isEmpty then
      Except.ok (g, { mounted := none, failed := false })
    else
      match chartModel.visualProps with
      | none => Except.error ()
      | some visualProps =>
        let g2 : Globals :=
          { userNumberFormat := orElseStr visualProps.numberFormat g.userNumberFormat
            numberOfLabels := orElseInt visualProps.numOfLabels g.numberOfLabels
            gradientColor0 := orElseStr visualProps.gradientColor0 g.gradientColor0
            gradientColor50 := orElseStr visualProps.gradientColor50 g.gradientColor50
            gradientColor100 := orElseStr visualProps.gradientColor100 g.gradientColor100 }
        let categoryColumn := dimColumnId chartModel 0
        let measureColumn := dimColumnId chartModel 1
        let colorAxisColumn := dimColumnName chartModel 2
        match categoryColumn, measureColumn with
        | some catId, some measId =>
          let cfg : HCConfig :=
            { seriesData := dataModel.values.map (fun dp => { dp with colorValue := dp.colorValue })
              clickCategoryId := catId
              clickMeasureId := measId
              colorAxis :=
                { minColor := g2.gradientColor0
                  maxColor := g2.gradientColor100
                  stops := [((0 : ℚ), g2.gradientColor0),
                            (mkRat 1 2, g2.gradientColor50),
                            ((1 : ℚ), g2.gradientColor100)] }
              legendTitle := colorAxisColumn }
          Except.ok (g2, { mounted := some cfg, failed := false })
        | _, _ => Except.ok (g2, { mounted := none, failed := false })

/-- `render` (src/treemap.ts lines 148-331): the catch block logs and falls
through, leaving the chart unmounted. The only throw happens before any
global is reassigned, so the catch path leaves the globals unchanged. -/
def render (g : Globals) (ctx : Ctx) : Globals × RenderResult :=
  match renderCore g ctx with
  | Except.ok r => r
  | Except.error _ => (g, { mounted := none, failed := true })

/-- One element of the `clickedPoint.tuple` payload (lines 241-244). -/
structure TuplePart where
  columnId : String
  value : JsVal
deriving DecidableEq

/-- Events the plugin emits to the host (`ctx.emitEvent`). The context-menu
event carries the clicked tuple and the custom action ids. -/
inductive TSEvent where
  | renderStart
  | renderComplete
  | renderError
  | openContextMenu : List TuplePart → List String → TSEvent
deriving DecidableEq

/-- The point click handler of src/treemap.ts lines 230-263: it emits one
`OpenContextMenu` event whose tuple pairs the captured category column id
with the clicked point's name and the captured measure column id with the
point's value, plus the two custom actions. -/
def onPointClick (categoryColumn measureColumn : String) (p : TreemapPoint) : List TSEvent :=
  let categoryValue := p.name
  let measureValue := p.value
  [TSEvent.openContextMenu
    [{ columnId := categoryColumn, value := JsVal.str categoryValue },
     { columnId := measureColumn, value := numToJs measureValue }]
    ["custom-action-1", "download-chart"]]

/-- The try block of `renderChart` (lines 336-338): emit `RenderStart`, then
call `render`. Neither step can throw in this model (`render` catches all
its own exceptions), so the result is always `ok`; an error would carry the
events emitted before the throw. -/
def renderChartTry (g : Globals) (ctx : Ctx) :
    Except (List TSEvent) (List TSEvent × Globals × RenderResult) :=
  Except.ok ([TSEvent.renderStart], render g ctx)

/-- `renderChart` (src/treemap.ts lines 334-348): try/catch/finally. The
catch branch emits `RenderError`; the finally branch always emits
`RenderComplete`. -/
def renderChart (g : Globals) (ctx : Ctx) : List TSEvent × Globals × RenderResult :=
  match renderChartTry g ctx with
  | Except.ok (evs, g2, r) => (evs ++ [TSEvent.renderComplete], g2, r)
  | Except.error evs =>
    (evs ++ [TSEvent.renderError, TSEvent.renderComplete], g, { mounted := none, failed := true })

/-- A JS value assigned to a `columns` property by `getDefaultChartConfig`:
the source's ternaries put either a bare column object or an array there. -/
inductive JsColumns where
  | arr : List ChartColumn → JsColumns
  | single : ChartColumn → JsColumns
deriving DecidableEq

/-- A dimension of the generated default configuration. -/
structure DefaultDimension where
  key : String
  columns : JsColumns
deriving DecidableEq

/-- The generated default chart configuration. -/
structure DefaultChartConfig where
  key : String
  dimensions : List DefaultDimension
deriving DecidableEq

/-- `getDefaultChartConfig` (src/treemap.ts lines 355-411), a callback
registered with the host SDK. It has no try/catch of its own: when the
required attribute or measure columns are missing it throws (line 377),
modelled as `Except.error` carrying the exception message, and the
exception propagates to the caller. -/
def getDefaultChartConfig (chartModel : ChartModel) : Except String (List DefaultChartConfig) :=
  let attributeColumns := attributeColumnsOf chartModel
  let measureColumns := measureColumnsOf chartModel
  if attributeColumns.isEmpty || measureColumns.isEmpty then
    Except.error "Invalid chart configuration: Missing required attribute or measure columns."
  else
    Except.ok [
      { key := "default"
        dimensions := [
          { key := "category"
            columns := match attributeColumns with
              | c :: _ => JsColumns.single c
              | [] => JsColumns.arr [] },
          { key := "measure"
            columns := match measureColumns with
              | c :: _ => JsColumns.single c
              | [] => JsColumns.arr [] },
          { key := "color axis"
            columns := match measureColumns with
              | _ :: c :: _ => JsColumns.single c
              | _ => JsColumns.arr [] },
          { key := "Labels"
            columns := if measureColumns.length > 2 then
                JsColumns.arr ((measureColumns.drop 2).take 2)
              else JsColumns.arr [] },
          { key := "Tooltip columns"
            columns := if measureColumns.length > 4 then
                JsColumns.arr (measureColumns.drop 4)
              else JsColumns.arr [] } ] } ]

/-- JS `String.prototype.replace` with a single-character pattern: only the
first occurrence is replaced. -/
def replaceFirstAux : List Char → Char → Char → List Char
  | [], _, _ => []
  | c :: cs, pat, rep => if c = pat then rep :: cs else c :: replaceFirstAux cs pat rep

/-- String form of `replaceFirstAux`. -/
def replaceFirst (s : String) (pat rep : Char) : String :=
  String.mk (replaceFirstAux s.toList pat rep)

/-- Number of forced decimal places of a numeral format string such as
`0.0` (the zeros after the decimal point). -/
def decimalsOf (fmt : String) : Nat :=
  match fmt.toList.dropWhile (fun c => c ≠ '.') with
  | [] => 0
  | _ :: rest => (rest.takeWhile (fun c => c = '0')).length

/-- Floor of a rational, computed on its numerator and denominator. -/
def ratFloor (q : ℚ) : Int := q.num.fdiv q.den

/-- JS `Math.round`: round half toward positive infinity. -/
def jsRound (q : ℚ) : Int := ratFloor (ratAdd q (mkRat 1 2))

/-- Decimal digits of `n`, left-padded with zeros to width `d`. -/
def natPad (n d : Nat) : String :=
  let s := toString n
  String.mk (List.replicate (d - s.length) '0') ++ s

/-- Fixed-point rendering of a rational with `d` decimal places, rounding
as `Math.round` does (the rounding numeral.js applies). -/
def toFixedStr (q : ℚ) (d : Nat) : String :=
  let n := jsRound (ratMul q (pow10 d))
  let sign := if n < 0 then "-" else ""
  let m := n.natAbs
  let ip := m / 10 ^ d
  let fp := m % 10 ^ d
  if d = 0 then sign ++ toString ip
  else sign ++ toString ip ++ "." ++ natPad fp d

/-- Model of `numeral(value).format(fmt)` for the format strings the source
builds (`0.0a` and the like): a trailing `a` abbreviates by thousand
(`k`), million (`m`), billion (`b`) or trillion (`t`) as numeral.js does,
and the zeros after the decimal point fix the decimal places. -/
def numeralFormat (value : ℚ) (fmt : String) : String :=
  let chars := fmt.toList
  let hasAbbrev := chars.contains 'a'
  let d := decimalsOf (String.mk (chars.filter (fun c => c ≠ 'a')))
  let a := if value < 0 then ratNeg value else value
  if hasAbbrev then
    let scaled :=
      if pow10 12 ≤ a then (ratDiv value (pow10 12), "t")
      else if pow10 9 ≤ a then (ratDiv value (pow10 9), "b")
      else if pow10 6 ≤ a then (ratDiv value (pow10 6), "m")
      else if pow10 3 ≤ a then (ratDiv value (pow10 3), "k")
      else (value, "")
    toFixedStr scaled.1 d ++ scaled.2
  else toFixedStr value d

/-- `numberFormatter` (src/treemap.ts lines 51-61): append `a` to the
format, format through numeral, then uppercase the first `k`, `m` and `b`.
The source defaults `format` to `"0.0"`; callers here always pass it. -/
def numberFormatter (value : ℚ) (format : String) : String :=
  let abbreviationFormat := format ++ "a"
  let formattedValue := numeralFormat value abbreviationFormat
  replaceFirst (replaceFirst (replaceFirst formattedValue 'k' 'K') 'm' 'M') 'b' 'B'

/-- Descending order on the `value` field of treemap points (the order the
sorted point list is claimed to satisfy); NaN values are compared through
the default `0`, and the claims pair this with an `isSome` guarantee. -/
def descVal (a b : TreemapPoint) : Prop := b.value.getD 0 ≤ a.value.getD 0

instance : DecidableRel descVal := fun a b =>
  inferInstanceAs (Decidable (b.value.getD 0 ≤ a.value.getD 0))

instance : IsTrans TreemapPoint descVal :=
  ⟨fun _ _ _ hab hbc => le_trans hbc hab⟩

theorem ptLe_total (a b : TreemapPoint) : ptLe a b = true ∨ ptLe b a = true := by
  unfold ptLe
  rcases a.value with _ | x <;> rcases b.value with _ | y <;> simp
  exact le_total y x

theorem insertPoint_perm (p : TreemapPoint) :
    ∀ l : List TreemapPoint, List.Perm (insertPoint p l) (p :: l) := by
  intro l
  induction l with
  | nil => exact List.Perm.refl _
  | cons q rest ih =>
    unfold insertPoint
    by_cases h : ptLe p q
    · simp [h]
    · simp only [h, if_neg, Bool.false_eq_true, if_false]
      exact List.Perm.trans (ih.cons q) (List.Perm.swap p q rest)

theorem sortPoints_perm (l : List TreemapPoint) : List.Perm (sortPoints l) l := by
  induction l with
  | nil => exact List.Perm.refl _
  | cons p rest ih =>
    unfold sortPoints
    exact List.Perm.trans (insertPoint_perm p (sortPoints rest)) (ih.cons p)

theorem insertPoint_headOpt (p : TreemapPoint) (l : List TreemapPoint) :
    (insertPoint p l).head? = some p ∨ (insertPoint p l).head? = l.head? := by
  cases l with
  | nil => left; rfl
  | cons q rest =>
    unfold insertPoint
    by_cases h : ptLe p q
    · left; simp [h]
    · right; simp [h]

theorem chain'_insertPoint (p : TreemapPoint) (l : List TreemapPoint)
    (hl : List.Chain' (fun a b => ptLe a b = true) l) :
    List.Chain' (fun a b => ptLe a b = true) (insertPoint p l) := by
  induction l with
  | nil => simp [insertPoint]
  | cons q rest ih =>
    unfold insertPoint
    by_cases h : ptLe p q
    · rw [if_pos h]
      exact List.chain'_cons.mpr ⟨h, hl⟩
    · have hqp : ptLe q p = true := by
        rcases ptLe_total p q with hpq | hqp
        · exact absurd hpq h
        · exact hqp
      have hrest : List.Chain' (fun a b => ptLe a b = true) rest :=
        (List.chain'_cons'.mp hl).2
      have hins := ih hrest
      simp only [h, Bool.false_eq_true, if_false]
      refine List.chain'_cons'.mpr ⟨?_, hins⟩
      intro y hy
      rcases insertPoint_headOpt p rest with hh | hh
      · rw [hh] at hy
        cases hy
        exact hqp
      · rw [hh] at hy
        exact (List.chain'_cons'.mp hl).1 y hy

theorem sortPoints_chain' (l : List TreemapPoint) :
    List.Chain' (fun a b => ptLe a b = true) (sortPoints l) := by
  induction l with
  | nil => simp [sortPoints]
  | cons p rest ih =>
    unfold sortPoints
    exact chain'_insertPoint p (sortPoints rest) ih

theorem chain'_descVal_of_ptLe :
    ∀ l : List TreemapPoint, List.Chain' (fun a b => ptLe a b = true) l →
      (∀ p ∈ l, p.value.isSome = true) → List.Chain' descVal l := by
  intro l
  induction l with
  | nil => intro _ _; exact List.chain'_nil
  | cons a rest ih =>
    intro hch hall
    cases rest with
    | nil => exact List.chain'_singleton a
    | cons b rest2 =>
      have hab : ptLe a b = true := (List.chain'_cons.mp hch).1
      have ha : a.value.isSome = true := hall a (by simp)
      have hb : b.value.isSome = true := hall b (by simp)
      refine List.chain'_cons.mpr ⟨?_, ?_⟩
      · rcases Option.isSome_iff_exists.mp ha with ⟨x, hx⟩
        rcases Option.isSome_iff_exists.mp hb with ⟨y, hy⟩
        unfold ptLe at hab
        rw [hx, hy] at hab
        simp at hab
        unfold descVal
        rw [hx, hy]
        simpa using hab
      · exact ih (List.chain'_cons.mp hch).2 (fun p hp => hall p (by simp [hp]))

theorem getDataModel_values_spec (cm : ChartModel) :
    (getDataModel cm).values = [] ∨
    (getDataModel cm).values =
      sortPoints ((dataRows cm).map (mkPoint (measureColumnsOf cm))) := by
  unfold getDataModel getDataModelCore
  rcases hcfg : configDimensionsOf cm with e | dims
  · left; simp [hcfg]
  · rcases hdat : dataArrOf cm with _ | dataArr
    · left; simp [hcfg, hdat]
    · rcases hcat : categoryColumnOfDims dims with _ | catCol
      · left; simp [hcfg, hdat, hcat]
      · by_cases hm : (measureColumnsOf cm).isEmpty
        · left; simp [hcfg, hdat, hcat, hm]
        · right
          simp [hcfg, hdat, hcat, hm, dataRows]

theorem getDataModel_mem_row (cm : ChartModel) (p : TreemapPoint)
    (hp : p ∈ (getDataModel cm).values) :
    ∃ row ∈ dataRows cm, p = mkPoint (measureColumnsOf cm) row := by
  rcases getDataModel_values_spec cm with h | h
  · rw [h] at hp; cases hp
  · rw [h] at hp
    have hp2 : p ∈ (dataRows cm).map (mkPoint (measureColumnsOf cm)) :=
      (sortPoints_perm _).mem_iff.mp hp
    rcases List.mem_map.mp hp2 with ⟨row, hrow, heq⟩
    exact ⟨row, hrow, heq.symm⟩

/-
  Concrete fixtures used by the witness and counterexample theorems.
-/

/-- A category (attribute) column. -/
def regionCol : ChartColumn := { id := "col-region", name := "Region", type := ColumnType.attribute }

/-- A first measure column. -/
def salesCol : ChartColumn := { id := "col-sales", name := "Sales", type := ColumnType.measure }

/-- A second measure column. -/
def profitCol : ChartColumn := { id := "col-profit", name := "Profit", type := ColumnType.measure }

/-- A standard three-dimension chart configuration (category, measure,
color axis). -/
def stdDims : List ChartDimension :=
  [{ key := "category", columns := [regionCol] },
   { key := "measure", columns := [salesCol] },
   { key := "color axis", columns := [profitCol] }]

/-- The `config` field holding `stdDims`. -/
def stdConfig : Option ChartModelConfig :=
  some { chartConfig := some [{ key := "default", dimensions := stdDims }] }

/-- A `visualProps` record with every property absent. -/
def emptyVP : VisualProps :=
  { numberFormat := none, numOfLabels := none,
    gradientColor0 := none, gradientColor50 := none, gradientColor100 := none }

/-- Three data rows (category, two measures), not sorted by the first
measure. -/
def stdData : Option (List DataSet) :=
  some [{ data := { dataValue :=
    [[JsVal.str "A", JsVal.num 10, JsVal.num 5],
     [JsVal.str "B", JsVal.num 30, JsVal.num 2],
     [JsVal.undef, JsVal.num 20, JsVal.num 9]] } }]

/-- Fixture for C1: one category column and two measure columns. -/
def cmC1 : ChartModel :=
  { config := stdConfig, data := stdData,
    columns := [regionCol, salesCol, profitCol], visualProps := some emptyVP }

/-- Fixture for C2: data present but no measure column configured. -/
def cmC2 : ChartModel :=
  { config := stdConfig, data := stdData,
    columns := [regionCol], visualProps := some emptyVP }

/-- Fixture for C8: a single measure column, and a row with no cell at
index 2. -/
def cmC8 : ChartModel :=
  { config := stdConfig,
    data := some [{ data := { dataValue := [[JsVal.str "A", JsVal.num 10]] } }],
    columns := [regionCol, salesCol], visualProps := some emptyVP }

/-- Fixture for C10: includes a row whose category cell is undefined. -/
def cmC10 : ChartModel :=
  { config := stdConfig,
    data := some [{ data := { dataValue :=
      [[JsVal.str "A", JsVal.num 1, JsVal.num 1],
       [JsVal.undef, JsVal.num 2, JsVal.num 2]] } }],
    columns := [regionCol, salesCol, profitCol], visualProps := some emptyVP }

/-
  Claim theorems.
-/

/-- C1: for every result set with one category column and at least two
measure columns, whose first-measure cells parse to numbers, the point
list produced by `getDataModel` is sorted in descending order of the
first measure's value (the point's `value` field, parsed from row
index 1): every point's value is present and consecutive-free descending
(`List.Pairwise descVal`). -/
theorem c1_getDataModel_sorted_desc (cm : ChartModel)
    (_hcat : (categoryColumnOf cm).isSome = true)
    (_hmeas : 2 ≤ (measureColumnsOf cm).length)
    (hnum : ∀ row ∈ dataRows cm, (jsParseFloat (getJs row 1)).isSome = true) :
    (∀ p ∈ (getDataModel cm).values, p.value.isSome = true) ∧
    List.Pairwise descVal (getDataModel cm).values := by
  have hall : ∀ p ∈ (getDataModel cm).values, p.value.isSome = true := by
    intro p hp
    rcases getDataModel_mem_row cm p hp with ⟨row, hrow, rfl⟩
    simpa [mkPoint] using hnum row hrow
  refine ⟨hall, ?_⟩
  rcases getDataModel_values_spec cm with h | h
  · rw [h]; exact List.Pairwise.nil
  · have hch : List.Chain' (fun a b => ptLe a b = true) (getDataModel cm).values := by
      rw [h]; exact sortPoints_chain' _
    exact List.chain'_iff_pairwise.mp (chain'_descVal_of_ptLe _ hch hall)

/-- C1 witness: the hypotheses hold of `cmC1` and the theorem applies. -/
theorem c1_witness :
    ((categoryColumnOf cmC1).isSome = true ∧ 2 ≤ (measureColumnsOf cmC1).length ∧
      (∀ row ∈ dataRows cmC1, (jsParseFloat (getJs row 1)).isSome = true)) ∧
    ((∀ p ∈ (getDataModel cmC1).values, p.value.isSome = true) ∧
      List.Pairwise descVal (getDataModel cmC1).values) :=
  ⟨⟨by decide, by decide, by decide⟩,
    c1_getDataModel_sorted_desc cmC1 (by decide) (by decide) (by decide)⟩

/-- C2: when the category column is absent or no measure column exists,
`getDataModel` returns the empty result and `render` returns without
mounting a chart. -/
theorem c2_missing_columns_no_mount (g : Globals) (cm : ChartModel)
    (h : categoryColumnOf cm = none ∨ measureColumnsOf cm = []) :
    getDataModel cm = { values := [] } ∧
    (render g { chartModel := some cm }).2.mounted = none := by
  have h1 : getDataModel cm = { values := [] } := by
    unfold getDataModel getDataModelCore
    rcases hcfg : configDimensionsOf cm with e | dims
    · simp [hcfg]
    · rcases hdat : dataArrOf cm with _ | dataArr
      · simp [hcfg, hdat]
      · rcases h with hcat | hmeas
        · have hc : categoryColumnOfDims dims = none := by
            unfold categoryColumnOf at hcat
            rw [hcfg] at hcat
            exact hcat
          simp [hcfg, hdat, hc]
        · rcases hcat2 : categoryColumnOfDims dims with _ | catCol
          · simp [hcfg, hdat, hcat2]
          · simp [hcfg, hdat, hcat2, hmeas]
  refine ⟨h1, ?_⟩
  simp [render, renderCore, h1]

/-- C2 witness: `cmC2` has data but no measure column; the theorem
applies. -/
theorem c2_witness :
    (categoryColumnOf cmC2 = none ∨ measureColumnsOf cmC2 = []) ∧
    (getDataModel cmC2 = { values := [] } ∧
      (render defaultGlobals { chartModel := some cmC2 }).2.mounted = none) :=
  ⟨by decide, c2_missing_columns_no_mount defaultGlobals cmC2 (by decide)⟩

/-- C5: `numberFormatter` renders 1500 with format `0.0` as `"1.5K"` and
2000000 as `"2.0M"`. -/
theorem c5_numberFormatter_values :
    numberFormatter 1500 "0.0" = "1.5K" ∧ numberFormatter 2000000 "0.0" = "2.0M" :=
  ⟨by decide, by decide⟩

/-- C6: the point click handler emits exactly one `OpenContextMenu` event,
whose tuple pairs the category column id with the clicked point's category
value (its name) and the measure column id with its measure value. -/
theorem c6_click_single_context_menu (catId measId : String) (p : TreemapPoint) :
    (onPointClick catId measId p).length = 1 ∧
    onPointClick catId measId p =
      [TSEvent.openContextMenu
        [{ columnId := catId, value := JsVal.str p.name },
         { columnId := measId, value := numToJs p.value }]
        ["custom-action-1", "download-chart"]] :=
  ⟨rfl, rfl⟩

/-- C8: every point produced by `getDataModel` takes its `colorValue` from
`parseFloat(row[2])`, with no guard on the number of configured measures
(the membership theorem has no hypothesis on `measureColumnsOf`). -/
theorem c8_colorValue_reads_index2 (cm : ChartModel) (p : TreemapPoint)
    (hp : p ∈ (getDataModel cm).values) :
    ∃ row ∈ dataRows cm, p.colorValue = jsParseFloat (getJs row 2) := by
  rcases getDataModel_mem_row cm p hp with ⟨row, hrow, rfl⟩
  exact ⟨row, hrow, rfl⟩

/-- C8 witness: with a single measure and a two-cell row, the point is
produced with `colorValue = parseFloat(undefined)` (NaN, `none`), showing
the unguarded index-2 read. -/
theorem c8_witness :
    (mkPoint (measureColumnsOf cmC8) [JsVal.str "A", JsVal.num 10] ∈ (getDataModel cmC8).values ∧
      (mkPoint (measureColumnsOf cmC8) [JsVal.str "A", JsVal.num 10]).colorValue = none) ∧
    (∃ row ∈ dataRows cmC8,
      (mkPoint (measureColumnsOf cmC8) [JsVal.str "A", JsVal.num 10]).colorValue =
        jsParseFloat (getJs row 2)) :=
  ⟨⟨by decide, by decide⟩,
    c8_colorValue_reads_index2 cmC8 _ (by decide)⟩

/-- C10: every point produced by `getDataModel` comes from a row, and its
name is `"Unnamed"` exactly when the row's category cell (index 0) is
undefined, and the string conversion of that cell otherwise. -/
theorem c10_unnamed_category (cm : ChartModel) (p : TreemapPoint)
    (hp : p ∈ (getDataModel cm).values) :
    ∃ row ∈ dataRows cm, p = mkPoint (measureColumnsOf cm) row ∧
      ((getJs row 0 = JsVal.undef ∧ p.name = "Unnamed") ∨
       (getJs row 0 ≠ JsVal.undef ∧ p.name = jsToString (getJs row 0))) := by
  rcases getDataModel_mem_row cm p hp with ⟨row, hrow, rfl⟩
  refine ⟨row, hrow, rfl, ?_⟩
  by_cases h : getJs row 0 = JsVal.undef
  · left; exact ⟨h, by simp [mkPoint, h]⟩
  · right; exact ⟨h, by simp [mkPoint, h]⟩

/-- C10 witness: the point of the undefined-category row of `cmC10` is in
the output and the theorem applies to it. -/
theorem c10_witness :
    (mkPoint (measureColumnsOf cmC10) [JsVal.undef, JsVal.num 2, JsVal.num 2]
        ∈ (getDataModel cmC10).values ∧
      (mkPoint (measureColumnsOf cmC10) [JsVal.undef, JsVal.num 2, JsVal.num 2]).name = "Unnamed") ∧
    (∃ row ∈ dataRows cmC10,
      mkPoint (measureColumnsOf cmC10) [JsVal.undef, JsVal.num 2, JsVal.num 2] =
        mkPoint (measureColumnsOf cmC10) row ∧
      ((getJs row 0 = JsVal.undef ∧
          (mkPoint (measureColumnsOf cmC10) [JsVal.undef, JsVal.num 2, JsVal.num 2]).name = "Unnamed") ∨
       (getJs row 0 ≠ JsVal.undef ∧
          (mkPoint (measureColumnsOf cmC10) [JsVal.undef, JsVal.num 2, JsVal.num 2]).name =
            jsToString (getJs row 0)))) :=
  ⟨⟨by decide, by decide⟩, c10_unnamed_category cmC10 _ (by decide)⟩

/-- Does `getDefaultChartConfig` throw (i.e. return an `Except.error` that
escapes the registered callback)? -/
def defaultConfigThrows (cm : ChartModel) : Bool :=
  match getDefaultChartConfig cm with
  | Except.error _ => true
  | Except.ok _ => false

/-- C3 counterexample: on a chart model with no columns at all, the
registered operation `getDefaultChartConfig` ends in an uncaught exception
(`Except.error`, line 377 of the source) that propagates to the caller,
refuting "every failure in every registered operation is caught at that
operation's boundary". -/
theorem c3_counterexample :
    getDefaultChartConfig { config := none, data := none, columns := [], visualProps := none } =
      Except.error "Invalid chart configuration: Missing required attribute or measure columns." :=
  rfl

/-- C3 amended: failures in the render path are caught (`renderChart` always
runs its finally branch, so its event list ends with `RenderComplete`),
but `getDefaultChartConfig` throws exactly when the attribute columns or
the measure columns are missing, and that exception escapes the
callback. -/
theorem c3_amended_catch_boundaries (g : Globals) (ctx : Ctx) (cm : ChartModel) :
    (renderChart g ctx).1.getLast? = some TSEvent.renderComplete ∧
    (defaultConfigThrows cm = true ↔
      (attributeColumnsOf cm = [] ∨ measureColumnsOf cm = [])) := by
  constructor
  · rfl
  · unfold defaultConfigThrows getDefaultChartConfig
    by_cases ha : attributeColumnsOf cm = []
    · simp [ha]
    · by_cases hm : measureColumnsOf cm = []
      · simp [ha, hm]
      · simp [ha, hm]

/-- Fixture for C4: a valid configuration and data, but an undefined
`visualProps`, so that the configuration stage of `render` throws. -/
def cmC4 : ChartModel :=
  { config := stdConfig, data := stdData,
    columns := [regionCol, salesCol, profitCol], visualProps := none }

/-- C4 counterexample: on `cmC4` the render pass fails (the catch block of
`render` runs), yet `renderChart` emits no `RenderError` — only
`RenderStart` and `RenderComplete` — because `render` swallows the failure
before `renderChart`'s catch can see it. -/
theorem c4_counterexample :
    (render defaultGlobals { chartModel := some cmC4 }).2.failed = true ∧
    (renderChart defaultGlobals { chartModel := some cmC4 }).1 =
      [TSEvent.renderStart, TSEvent.renderComplete] ∧
    TSEvent.renderError ∉ (renderChart defaultGlobals { chartModel := some cmC4 }).1 :=
  ⟨by decide, by decide, by decide⟩

/-- C4 amended: every invocation of `renderChart` emits `RenderStart`
before rendering and `RenderComplete` after, and nothing else: render
failures are caught and logged inside `render`, so no `RenderError` event
is ever emitted for them. -/
theorem c4_amended_lifecycle (g : Globals) (ctx : Ctx) :
    renderChart g ctx = ([TSEvent.renderStart, TSEvent.renderComplete], render g ctx) :=
  rfl

/-- The `visualProps` of the first C9 render pass: a number format is
supplied. -/
def vpC9A : VisualProps :=
  { numberFormat := some "0.00", numOfLabels := none,
    gradientColor0 := none, gradientColor50 := none, gradientColor100 := none }

/-- Fixture for C9, first pass. -/
def cmC9A : ChartModel :=
  { config := stdConfig, data := stdData,
    columns := [regionCol, salesCol, profitCol], visualProps := some vpC9A }

/-- Fixture for C9, second pass: the `numberFormat` property is absent. -/
def cmC9B : ChartModel :=
  { config := stdConfig, data := stdData,
    columns := [regionCol, salesCol, profitCol], visualProps := some emptyVP }

/-- C9 counterexample: after a pass that set the number format to
`"0.00"`, a pass whose `numberFormat` property is absent leaves the global
at `"0.00"` — the previous value — rather than restoring the default
`"0.0"`, refuting "defaults used when a property is absent". -/
theorem c9_counterexample :
    emptyVP.numberFormat = none ∧
    defaultGlobals.userNumberFormat = "0.0" ∧
    (render (render defaultGlobals { chartModel := some cmC9A }).1
        { chartModel := some cmC9B }).1.userNumberFormat = "0.00" ∧
    "0.00" ≠ defaultGlobals.userNumberFormat :=
  ⟨rfl, rfl, by decide, by decide⟩

/-- C9 amended: on every render pass that reaches the visual-property
stage (chart model present, nonempty point list, `visualProps` defined),
all five globals are overwritten with the host-supplied values; when a
property is absent or falsy, the value of the previous pass is kept (which
equals the built-in default only until some pass overrides it). -/
theorem c9_amended_globals_overwrite (g : Globals) (cm : ChartModel) (vp : VisualProps)
    (hvp : cm.visualProps = some vp)
    (hvals : (getDataModel cm).values ≠ []) :
    (render g { chartModel := some cm }).1 =
      { userNumberFormat := orElseStr vp.numberFormat g.userNumberFormat
        numberOfLabels := orElseInt vp.numOfLabels g.numberOfLabels
        gradientColor0 := orElseStr vp.gradientColor0 g.gradientColor0
        gradientColor50 := orElseStr vp.gradientColor50 g.gradientColor50
        gradientColor100 := orElseStr vp.gradientColor100 g.gradientColor100 } := by
  have hemp : (getDataModel cm).values.isEmpty = false := by
    simp [List.isEmpty_iff, hvals]
  rcases h0 : dimColumnId cm 0 with _ | catId
  · simp [render, renderCore, hemp, hvp, h0]
  · rcases h1 : dimColumnId cm 1 with _ | measId
    · simp [render, renderCore, hemp, hvp, h0, h1]
    · simp [render, renderCore, hemp, hvp, h0, h1]

/-- C9 amended witness: the first C9 pass overwrites the globals from
`vpC9A` over the defaults. -/
theorem c9_amended_witness :
    (cmC9A.visualProps = some vpC9A ∧ (getDataModel cmC9A).values ≠ []) ∧
    (render defaultGlobals { chartModel := some cmC9A }).1 =
      { userNumberFormat := orElseStr vpC9A.numberFormat defaultGlobals.userNumberFormat
        numberOfLabels := orElseInt vpC9A.numOfLabels defaultGlobals.numberOfLabels
        gradientColor0 := orElseStr vpC9A.gradientColor0 defaultGlobals.gradientColor0
        gradientColor50 := orElseStr vpC9A.gradientColor50 defaultGlobals.gradientColor50
        gradientColor100 := orElseStr vpC9A.gradientColor100 defaultGlobals.gradientColor100 } :=
  ⟨⟨rfl, by decide⟩,
    c9_amended_globals_overwrite defaultGlobals cmC9A vpC9A rfl (by decide)⟩

/-- A `visualProps` record parameterised by the three gradient stops. -/
def gradVP (nf : Option String) (nl : Option Int) (a b c : Option String) : VisualProps :=
  { numberFormat := nf, numOfLabels := nl,
    gradientColor0 := a, gradientColor50 := b, gradientColor100 := c }

/-- A chart model with the given `visualProps` and everything else shared. -/
def gradModel (cfg : Option ChartModelConfig) (dat : Option (List DataSet))
    (cols : List ChartColumn) (vp : VisualProps) : ChartModel :=
  { config := cfg, data := dat, columns := cols, visualProps := some vp }

theorem gradModel_visualProps (cfg : Option ChartModelConfig) (dat : Option (List DataSet))
    (cols : List ChartColumn) (vp : VisualProps) :
    (gradModel cfg dat cols vp).visualProps = some vp := rfl

theorem gradVP_numberFormat (nf : Option String) (nl : Option Int) (a b c : Option String) :
    (gradVP nf nl a b c).numberFormat = nf := rfl

theorem gradVP_numOfLabels (nf : Option String) (nl : Option Int) (a b c : Option String) :
    (gradVP nf nl a b c).numOfLabels = nl := rfl

theorem gradVP_gradientColor0 (nf : Option String) (nl : Option Int) (a b c : Option String) :
    (gradVP nf nl a b c).gradientColor0 = a := rfl

theorem gradVP_gradientColor50 (nf : Option String) (nl : Option Int) (a b c : Option String) :
    (gradVP nf nl a b c).gradientColor50 = b := rfl

theorem gradVP_gradientColor100 (nf : Option String) (nl : Option Int) (a b c : Option String) :
    (gradVP nf nl a b c).gradientColor100 = c := rfl

/-- C7: two render passes that differ only in the three gradient colors
mount the same series data (name, value, colorValue, tooltipData), and
each pass's color-axis stops are exactly the three chosen colors of that
pass (host value when present and non-falsy, current global otherwise). -/
theorem c7_gradients_only_affect_stops (g : Globals) (cfg : Option ChartModelConfig)
    (dat : Option (List DataSet)) (cols : List ChartColumn)
    (nf : Option String) (nl : Option Int) (o0 o50 o100 q0 q50 q100 : Option String) :
    (render g { chartModel := some (gradModel cfg dat cols (gradVP nf nl o0 o50 o100)) }).2.mounted.map
        HCConfig.seriesData =
      (render g { chartModel := some (gradModel cfg dat cols (gradVP nf nl q0 q50 q100)) }).2.mounted.map
        HCConfig.seriesData ∧
    (render g { chartModel := some (gradModel cfg dat cols (gradVP nf nl o0 o50 o100)) }).2.mounted.map
        (fun c => c.colorAxis.stops) =
      (render g { chartModel := some (gradModel cfg dat cols (gradVP nf nl o0 o50 o100)) }).2.mounted.map
        (fun _ => [((0 : ℚ), orElseStr o0 g.gradientColor0),
                   (mkRat 1 2, orElseStr o50 g.gradientColor50),
                   ((1 : ℚ), orElseStr o100 g.gradientColor100)]) ∧
    (render g { chartModel := some (gradModel cfg dat cols (gradVP nf nl q0 q50 q100)) }).2.mounted.map
        (fun c => c.colorAxis.stops) =
      (render g { chartModel := some (gradModel cfg dat cols (gradVP nf nl q0 q50 q100)) }).2.mounted.map
        (fun _ => [((0 : ℚ), orElseStr q0 g.gradientColor0),
                   (mkRat 1 2, orElseStr q50 g.gradientColor50),
                   ((1 : ℚ), orElseStr q100 g.gradientColor100)]) := by
  have hdm : getDataModel (gradModel cfg dat cols (gradVP nf nl q0 q50 q100)) =
      getDataModel (gradModel cfg dat cols (gradVP nf nl o0 o50 o100)) := rfl
  by_cases hemp : (getDataModel (gradModel cfg dat cols (gradVP nf nl o0 o50 o100))).values = []
  · have hemp2 : (getDataModel (gradModel cfg dat cols (gradVP nf nl q0 q50 q100))).values = [] :=
      hemp
    refine ⟨?_, ?_, ?_⟩ <;>
      simp [render, renderCore, hemp, hemp2, gradModel_visualProps, gradVP_numberFormat,
        gradVP_numOfLabels, gradVP_gradientColor0, gradVP_gradientColor50, gradVP_gradientColor100]
  · have hemp2 : ¬ (getDataModel (gradModel cfg dat cols (gradVP nf nl q0 q50 q100))).values = [] :=
      hemp
    rcases h0 : dimColumnId (gradModel cfg dat cols (gradVP nf nl o0 o50 o100)) 0 with _ | catId
    · have h0b : dimColumnId (gradModel cfg dat cols (gradVP nf nl q0 q50 q100)) 0 = none := h0
      refine ⟨?_, ?_, ?_⟩ <;>
        simp [render, renderCore, hemp, hemp2, h0, h0b, gradModel_visualProps, gradVP_numberFormat,
          gradVP_numOfLabels, gradVP_gradientColor0, gradVP_gradientColor50, gradVP_gradientColor100]
    · have h0b : dimColumnId (gradModel cfg dat cols (gradVP nf nl q0 q50 q100)) 0 = some catId :=
        h0
      rcases h1 : dimColumnId (gradModel cfg dat cols (gradVP nf nl o0 o50 o100)) 1 with _ | measId
      · have h1b : dimColumnId (gradModel cfg dat cols (gradVP nf nl q0 q50 q100)) 1 = none := h1
        refine ⟨?_, ?_, ?_⟩ <;>
          simp [render, renderCore, hemp, hemp2, h0, h0b, h1, h1b, gradModel_visualProps,
            gradVP_numberFormat, gradVP_numOfLabels, gradVP_gradientColor0, gradVP_gradientColor50,
            gradVP_gradientColor100]
      · have h1b : dimColumnId (gradModel cfg dat cols (gradVP nf nl q0 q50 q100)) 1 = some measId :=
          h1
        refine ⟨?_, ?_, ?_⟩ <;>
          simp [render, renderCore, hemp, hemp2, h0, h0b, h1, h1b, hdm, gradModel_visualProps,
            gradVP_numberFormat, gradVP_numOfLabels, gradVP_gradientColor0, gradVP_gradientColor50,
            gradVP_gradientColor100]

end Treemap
